import Mathlib

/-!
Verification of the decision pipeline of the ProjectBroke sports-betting
repository against its natural-language specification.

The Python sources are shallowly embedded: dict-shaped event payloads become
structures, American odds are integers, real arithmetic is modelled with `ℚ`,
and the fallible inference collaborator is modelled as a value of an explicit
result type.  Python `int(x)` on a quotient truncates toward zero, which is
modelled by `Int.tdiv` on numerator and denominator.
-/

namespace ProjectBroke

/-! ## Data model: raw event odds (input of `summarize_odds`)

Mirrors the JSON shape consumed by `budget_decision_engine.summarize_odds`:
an event has team names and a list of bookmakers; each bookmaker a list of
markets; each market a key (`"h2h"`, `"spreads"`, `"totals"`) and a list of
outcomes with a `name`, an integer American `price`, and an optional `point`
(spread or total line). -/

structure Outcome where
  name : String
  price : Int
  point : Option ℚ
deriving Repr, DecidableEq

structure Market where
  key : String
  outcomes : List Outcome
deriving Repr, DecidableEq

structure Bookmaker where
  key : String
  markets : List Market
deriving Repr, DecidableEq

structure EventOdds where
  id : String
  home_team : String
  away_team : String
  commence_time : String
  bookmakers : List Bookmaker
deriving Repr, DecidableEq

/-! ## Edge Evaluator: American odds to implied probability

From `sports_odds_client.SportsOddsClient.american_to_implied_prob`:
`if odds > 0: return 100 / (odds + 100) else: return abs(odds) / (abs(odds) + 100)`. -/

/-- Embedding of `SportsOddsClient.american_to_implied_prob`; Python `abs`
is `Int.natAbs` cast to `ℚ`. -/
def american_to_implied_prob (odds : Int) : ℚ :=
  if 0 < odds then 100 / ((odds : ℚ) + 100)
  else (odds.natAbs : ℚ) / ((odds.natAbs : ℚ) + 100)

/-! ## Odds Summarizer

Embedding of `BudgetDecisionEngine.summarize_odds`.  The Python code makes one
pass over `bookmakers -> markets -> outcomes`, appending to six lists keyed by
(market, side); the pass is rendered here as one order-preserving
gather function per list.  Moneyline (`"h2h"`) matches the outcome name
against the home team first, `elif` against the away team; spreads likewise;
totals match the literal names `"Over"` then `"Under"`. -/

/-- Prices appended to `summary["moneyline"]["home"]`. -/
def mlHomePrices (e : EventOdds) : List Int :=
  e.bookmakers.flatMap fun b => b.markets.flatMap fun m =>
    m.outcomes.filterMap fun o =>
      if m.key == "h2h" && o.name == e.home_team then some o.price else none

/-- Prices appended to `summary["moneyline"]["away"]` (the `elif` branch:
the name must fail the home match and pass the away match). -/
def mlAwayPrices (e : EventOdds) : List Int :=
  e.bookmakers.flatMap fun b => b.markets.flatMap fun m =>
    m.outcomes.filterMap fun o =>
      if m.key == "h2h" && !(o.name == e.home_team) && o.name == e.away_team
      then some o.price else none

/-- Entries `{"line": point, "odds": price}` appended to
`summary["spread"]["home"]`. -/
def spreadHomePairs (e : EventOdds) : List (Option ℚ × Int) :=
  e.bookmakers.flatMap fun b => b.markets.flatMap fun m =>
    m.outcomes.filterMap fun o =>
      if m.key == "spreads" && o.name == e.home_team then some (o.point, o.price)
      else none

/-- Entries appended to `summary["spread"]["away"]`. -/
def spreadAwayPairs (e : EventOdds) : List (Option ℚ × Int) :=
  e.bookmakers.flatMap fun b => b.markets.flatMap fun m =>
    m.outcomes.filterMap fun o =>
      if m.key == "spreads" && !(o.name == e.home_team) && o.name == e.away_team
      then some (o.point, o.price) else none

/-- Entries appended to `summary["total"]["over"]`. -/
def totalOverPairs (e : EventOdds) : List (Option ℚ × Int) :=
  e.bookmakers.flatMap fun b => b.markets.flatMap fun m =>
    m.outcomes.filterMap fun o =>
      if m.key == "totals" && o.name == "Over" then some (o.point, o.price)
      else none

/-- Entries appended to `summary["total"]["under"]`. -/
def totalUnderPairs (e : EventOdds) : List (Option ℚ × Int) :=
  e.bookmakers.flatMap fun b => b.markets.flatMap fun m =>
    m.outcomes.filterMap fun o =>
      if m.key == "totals" && !(o.name == "Over") && o.name == "Under"
      then some (o.point, o.price) else none

/-- Python `def avg(lst): return sum(lst) / len(lst) if lst else 0`. -/
def avgPrices (l : List Int) : ℚ :=
  if l.isEmpty then 0 else ((l.sum : ℚ)) / (l.length : ℚ)

/-- Python `int(q)` truncates a quotient toward zero; on a normalized
rational this is `Int.tdiv` of numerator by denominator. -/
def truncToInt (q : ℚ) : Int := Int.tdiv q.num (q.den : Int)

/-- Python `int(avg(lst))` (and the guarded
`int(avg(...)) if lst else 0` forms, which agree with it on empty lists). -/
def consensusOf (l : List Int) : Int := truncToInt (avgPrices l)

/-- Python `def best(lst): return max(lst) if lst else 0`. -/
def bestOf (l : List Int) : Int :=
  match l with
  | [] => 0
  | h :: t => t.foldl max h

/-- Python `lst[0]["line"] if lst else 0`: the first recorded line of a
spread/total side; `0` when no entry exists, and possibly Python `None`
(here `Option.none`) when the first outcome had no `point`. -/
def firstLineOf (l : List (Option ℚ × Int)) : Option ℚ :=
  match l with
  | [] => some 0
  | p :: _ => p.1

/-- Shape of the dict under `"moneyline"` in the return value of
`summarize_odds`. -/
structure MoneylineSummary where
  home_consensus : Int
  away_consensus : Int
  home_best : Int
  away_best : Int
deriving Repr, DecidableEq

/-- Shape of the dict under `"spread"`: note there is no best-price entry. -/
structure SpreadSummary where
  home_line : Option ℚ
  away_line : Option ℚ
  home_odds : Int
  away_odds : Int
deriving Repr, DecidableEq

/-- Shape of the dict under `"total"`: a single `line` and no best-price
entry. -/
structure TotalSummary where
  line : Option ℚ
  over_odds : Int
  under_odds : Int
deriving Repr, DecidableEq

/-- Shape of the dict returned by `summarize_odds`. -/
structure OddsSummary where
  home_team : String
  away_team : String
  moneyline : MoneylineSummary
  spread : SpreadSummary
  total : TotalSummary
  bookmaker_count : Nat
deriving Repr, DecidableEq

/-- Embedding of `BudgetDecisionEngine.summarize_odds`. -/
def summarize_odds (e : EventOdds) : OddsSummary where
  home_team := e.home_team
  away_team := e.away_team
  moneyline :=
    { home_consensus := consensusOf (mlHomePrices e)
      away_consensus := consensusOf (mlAwayPrices e)
      home_best := bestOf (mlHomePrices e)
      away_best := bestOf (mlAwayPrices e) }
  spread :=
    { home_line := firstLineOf (spreadHomePairs e)
      away_line := firstLineOf (spreadAwayPairs e)
      home_odds := consensusOf ((spreadHomePairs e).map Prod.snd)
      away_odds := consensusOf ((spreadAwayPairs e).map Prod.snd) }
  total :=
    { line := firstLineOf (totalOverPairs e)
      over_odds := consensusOf ((totalOverPairs e).map Prod.snd)
      under_odds := consensusOf ((totalUnderPairs e).map Prod.snd) }
  bookmaker_count := e.bookmakers.length

/-- Six (market, side) accumulation slots of `summarize_odds`. -/
inductive MarketSide where
  | mlHome | mlAway | spHome | spAway | totOver | totUnder
deriving Repr, DecidableEq

/-- The list `L` of prices gathered for a (market, side) slot. -/
def gatheredPrices (e : EventOdds) : MarketSide → List Int
  | .mlHome => mlHomePrices e
  | .mlAway => mlAwayPrices e
  | .spHome => (spreadHomePairs e).map Prod.snd
  | .spAway => (spreadAwayPairs e).map Prod.snd
  | .totOver => (totalOverPairs e).map Prod.snd
  | .totUnder => (totalUnderPairs e).map Prod.snd

/-- The consensus (averaged-price) field of the summary for each slot. -/
def consensusField (s : OddsSummary) : MarketSide → Int
  | .mlHome => s.moneyline.home_consensus
  | .mlAway => s.moneyline.away_consensus
  | .spHome => s.spread.home_odds
  | .spAway => s.spread.away_odds
  | .totOver => s.total.over_odds
  | .totUnder => s.total.under_odds

/-- The best-price field of the summary for each slot, when the summary has
one: only the moneyline dict carries `home_best` / `away_best`. -/
def bestField (s : OddsSummary) : MarketSide → Option Int
  | .mlHome => some s.moneyline.home_best
  | .mlAway => some s.moneyline.away_best
  | .spHome => none
  | .spAway => none
  | .totOver => none
  | .totUnder => none

/-- Slot classifier: the two moneyline slots. -/
def isMoneyline : MarketSide → Bool
  | .mlHome => true
  | .mlAway => true
  | _ => false

/-- The mock event from `budget_decision_engine.__main__`: one bookmaker
(`draftkings`) quoting h2h, spreads and totals. -/
def mockEvent : EventOdds where
  id := "test123"
  home_team := "Kansas City Chiefs"
  away_team := "Buffalo Bills"
  commence_time := "2024-01-21T18:30:00Z"
  bookmakers :=
    [{ key := "draftkings"
       markets :=
        [{ key := "h2h"
           outcomes :=
            [{ name := "Kansas City Chiefs", price := -150, point := none },
             { name := "Buffalo Bills", price := 130, point := none }] },
         { key := "spreads"
           outcomes :=
            [{ name := "Kansas City Chiefs", price := -110, point := some (-7/2) },
             { name := "Buffalo Bills", price := -110, point := some (7/2) }] },
         { key := "totals"
           outcomes :=
            [{ name := "Over", price := -110, point := some (95/2) },
             { name := "Under", price := -110, point := some (95/2) }] }] }]

/-- Line-bearing slots: the summary's line entries concern spreads and
totals only. -/
def isLineSide : MarketSide → Bool
  | .spHome => true
  | .spAway => true
  | .totOver => true
  | .totUnder => true
  | _ => false

/-- The gathered `(line, odds)` entry list per slot (moneyline slots gather
bare prices, so they are empty here). -/
def gatheredPairs (e : EventOdds) : MarketSide → List (Option ℚ × Int)
  | .spHome => spreadHomePairs e
  | .spAway => spreadAwayPairs e
  | .totOver => totalOverPairs e
  | .totUnder => totalUnderPairs e
  | _ => []

/-- The summary's line field serving each line-bearing slot: the spread dict
has one line per side, while the single `total.line` serves both the Over
and the Under side. -/
def lineField (s : OddsSummary) : MarketSide → Option (Option ℚ)
  | .spHome => some s.spread.home_line
  | .spAway => some s.spread.away_line
  | .totOver => some s.total.line
  | .totUnder => some s.total.line
  | _ => none

/-- An event whose totals outcomes carry different Over and Under points,
exercising the single `total.line` field. -/
def mismatchedTotalsEvent : EventOdds where
  id := "evt-totals"
  home_team := "H"
  away_team := "A"
  commence_time := ""
  bookmakers :=
    [{ key := "book1"
       markets :=
        [{ key := "totals"
           outcomes :=
            [{ name := "Over", price := -110, point := some (95/2) },
             { name := "Under", price := -105, point := some (97/2) }] }] }]

/-- Filter every market's outcome list by a predicate on (market key,
outcome), leaving everything else in the event unchanged. -/
def filterOutcomes (p : String → Outcome → Bool) (e : EventOdds) : EventOdds :=
  { e with
    bookmakers := e.bookmakers.map fun b =>
      { b with markets := b.markets.map fun m =>
        { m with outcomes := m.outcomes.filter (p m.key) } } }

/-- Keep, in the team-matched markets (`"h2h"` and `"spreads"`), only
outcomes named after the home or away team; keep other markets whole. -/
def teamMatchFilter (e : EventOdds) : String → Outcome → Bool := fun k o =>
  if k == "h2h" || k == "spreads" then
    o.name == e.home_team || o.name == e.away_team
  else true

/-- The event with every team-name-mismatched outcome of a team-matched
market removed. -/
def pruneNonMatching (e : EventOdds) : EventOdds :=
  filterOutcomes (teamMatchFilter e) e

/-- Keep every outcome except those named `"Under"` in a totals market. -/
def keepNonUnderTotals : String → Outcome → Bool := fun k o =>
  !(k == "totals" && o.name == "Under")

/-- The event with all totals-market `"Under"` outcomes removed. -/
def dropUnderOutcomes (e : EventOdds) : EventOdds :=
  filterOutcomes keepNonUnderTotals e

/-- The all-zero summary produced for an event with no bookmakers (the
Python line entries hold the integer `0`). -/
def zeroSummary (ht aw : String) : OddsSummary where
  home_team := ht
  away_team := aw
  moneyline := { home_consensus := 0, away_consensus := 0, home_best := 0, away_best := 0 }
  spread := { home_line := some 0, away_line := some 0, home_odds := 0, away_odds := 0 }
  total := { line := some 0, over_odds := 0, under_odds := 0 }
  bookmaker_count := 0

/-! ## Bet decisions and recommendation filtering

The `BetDecision` dataclass is shared by `decision_engine` and
`budget_decision_engine`; the event-identity metadata fields
(`event_name`, `sport`, timestamps, snapshots) are carried opaquely by the
Python code and play no role in any claim, so the embedding keeps the
decision flag, bet fields, the three numeric fields and the reasoning. -/

structure BetDecision where
  event_id : String
  decision : String
  bet_type : Option String
  bet_side : Option String
  confidence : ℚ
  expected_value : ℚ
  win_probability : ℚ
  reasoning : String
deriving Repr, DecidableEq

/-- Embedding of `AIDecisionEngine.get_recommendations` /
`BudgetDecisionEngine.get_recommendations` at an already-resolved
threshold: the Python list comprehension
`[d for d in decisions if d.decision == "place_bet" and d.confidence >= min_conf and d.expected_value > 0]`. -/
def get_recommendations (decisions : List BetDecision) (min_conf : ℚ) :
    List BetDecision :=
  decisions.filter fun d =>
    d.decision == "place_bet" && decide (min_conf ≤ d.confidence) &&
      decide ((0 : ℚ) < d.expected_value)

/-- Embedding of `min_conf = min_confidence or self.min_confidence` in
`AIDecisionEngine.get_recommendations`: Python `or` falls through to the
engine default when the argument is `None` or the falsy float `0.0`. -/
def effective_min_conf (arg : Option ℚ) (engine_min : ℚ) : ℚ :=
  match arg with
  | none => engine_min
  | some v => if v = 0 then engine_min else v

/-- Embedding of `AIDecisionEngine.get_recommendations` including its
argument-resolution line; `engine_min` is `self.min_confidence`
(`MIN_CONFIDENCE`, default `0.6`). -/
def get_recommendations_engine (decisions : List BetDecision)
    (arg : Option ℚ) (engine_min : ℚ) : List BetDecision :=
  get_recommendations decisions (effective_min_conf arg engine_min)

/-! ## Scan Orchestrator

Embedding of `BudgetDecisionEngine.scan_sport`.  The external collaborator
composite (odds retrieval already done, producing `events`; research plus
inference inside `generate_decision`) is abstracted as the failure-injected
`analyze`; a raised per-event exception is the `Except.error` case.  The
per-decision callback may itself fail; its invocation sits inside its own
`try/except`, after the decision has been appended, so its result is
discarded. -/

def scan_loop (analyze : EventOdds → Except String BetDecision)
    (callback : BetDecision → Except String Unit) :
    List EventOdds → List BetDecision
  | [] => []
  | e :: rest =>
    match analyze e with
    | .error _ => scan_loop analyze callback rest
    | .ok d =>
      let _ := callback d
      d :: scan_loop analyze callback rest

/-- Embedding of `BudgetDecisionEngine.scan_sport`: truncate the retrieved
events to `max_events` (`odds_data[:max_events]`), then run the per-event
loop. -/
def scan_sport (analyze : EventOdds → Except String BetDecision)
    (callback : BetDecision → Except String Unit)
    (events : List EventOdds) (max_events : Nat) : List BetDecision :=
  scan_loop analyze callback (events.take max_events)

/-- Value of `(analyze e)` as an `Option`: `some` exactly for the
non-failing events. -/
def analyzeOk (analyze : EventOdds → Except String BetDecision)
    (e : EventOdds) : Option BetDecision :=
  match analyze e with
  | .ok d => some d
  | .error _ => none

/-! ## Decision synthesis from the inference collaborator's response

Embedding of the response handling in
`BudgetDecisionEngine.generate_decision`.  The collaborator
(`OpenRouterClient.get_json_response`) returns a JSON object; transport
failures and non-JSON payloads are already converted to `{"error": ...}`
dicts inside the client, and an exception escaping the call is the
`AIResult.exn` case.  JSON scalar values are modelled by `JVal`; a JSON
object by an association list with the first binding of a key winning. -/

inductive JVal where
  | null
  | num (q : ℚ)
  | str (s : String)
  | bool (b : Bool)
deriving Repr, DecidableEq

/-- Python `resp.get(k, d)` on a dict. -/
def getJ (r : List (String × JVal)) (k : String) (d : JVal) : JVal :=
  (((r.find? fun p => p.1 == k).map Prod.snd).getD d)

/-- Python `k in resp` on a dict. -/
def hasKey (r : List (String × JVal)) (k : String) : Bool :=
  r.any fun p => p.1 == k

/-- Outcome of the `self.ai.get_json_response(...)` call: a returned JSON
object, or an exception carrying `str(e)`. -/
inductive AIResult where
  | ok (r : List (String × JVal))
  | exn (msg : String)

/-- The `try/except` and `if "error" in response` handling of
`generate_decision` (lines 242-256 of `budget_decision_engine.py`): an
exception is replaced by a skip dict carrying `str(e)`, an error-shaped
response by a skip dict carrying the fixed string `"AI analysis failed"`
(the error message itself is only logged). -/
def resolve_response : AIResult → List (String × JVal)
  | .exn e => [("decision", .str "skip"), ("reasoning", .str e)]
  | .ok r =>
    if hasKey r "error" then
      [("decision", .str "skip"), ("reasoning", .str "AI analysis failed")]
    else r

/-- The response-derived fields of the `BetDecision` built at the end of
`generate_decision`; each is the raw value fetched by `response.get`,
stored without validation or clamping. -/
structure BuiltDecision where
  decision : JVal
  bet_type : JVal
  bet_side : JVal
  confidence : JVal
  expected_value : JVal
  win_probability : JVal
  reasoning : JVal
deriving Repr, DecidableEq

/-- Embedding of the `BetDecision(...)` construction in
`generate_decision`: `response.get("decision", "skip")`,
`response.get("bet_type")` (default `None`), `response.get("confidence", 0)`
and so on. -/
def build_decision (res : AIResult) : BuiltDecision where
  decision := getJ (resolve_response res) "decision" (.str "skip")
  bet_type := getJ (resolve_response res) "bet_type" .null
  bet_side := getJ (resolve_response res) "bet_side" .null
  confidence := getJ (resolve_response res) "confidence" (.num 0)
  expected_value := getJ (resolve_response res) "expected_value" (.num 0)
  win_probability := getJ (resolve_response res) "win_probability" (.num 0)
  reasoning := getJ (resolve_response res) "reasoning" (.str "")

/-- Whether the first list starts the second, character by character. -/
def matchesFront : List Char → List Char → Bool
  | [], _ => true
  | _ :: _, [] => false
  | c :: cs, d :: ds => (c == d) && matchesFront cs ds

/-- Whether the first list occurs contiguously inside the second. -/
def occursIn (needle : List Char) : List Char → Bool
  | [] => matchesFront needle []
  | c :: t => matchesFront needle (c :: t) || occursIn needle t

/-- String containment: the needle occurs contiguously in the haystack. -/
def containsStr (hay needle : String) : Bool :=
  occursIn needle.data hay.data

/-- A `JVal` that is a number lying in the unit interval. -/
def inUnitNum (v : JVal) : Prop :=
  ∃ q : ℚ, v = .num q ∧ 0 ≤ q ∧ q ≤ 1

/-- An error-shaped collaborator response, as `get_json_response` returns
for a timeout. -/
def errResp : List (String × JVal) := [("error", .str "timeout")]

/-- A benign collaborator response carrying only a decision, with the
numeric fields absent. -/
def plainResp : List (String × JVal) := [("decision", .str "skip")]

/-- A well-formed-looking collaborator response whose numeric fields are
out of range. -/
def badResp : List (String × JVal) :=
  [("decision", .str "place_bet"), ("confidence", .num 2),
   ("win_probability", .num (3/2))]

/-! ## Edge Evaluator and heuristic Decision Synthesizer

Modelled from the spec: sections 4.2 and 4.3 describe a heuristic
edge-scoring path (edge per side from consensus and best price, side
selection, threshold decision) whose implementation is absent from the
shipped sources — only its configuration (`self.min_edge`,
`MIN_EDGE` default `0.03`, in `decision_engine.py` and `web/app.py`) and the
externally-judged variant exist.  The definitions below follow the spec's
words. -/

/-- Modelled from the spec: clamp to `[0,1]` (section 4.2/4.3 `clamp`). -/
def clamp01 (q : ℚ) : ℚ := max 0 (min 1 q)

/-- Modelled from the spec: per-side edge; `best == 0` or `consensus == 0`
is the no-quote sentinel giving edge `0`, otherwise
`implied_prob(consensus) − implied_prob(best)`. -/
def edgeForSide (consensus best : Int) : ℚ :=
  if best = 0 ∨ consensus = 0 then 0
  else american_to_implied_prob consensus - american_to_implied_prob best

/-- Modelled from the spec: the implied probability of a side's best price,
`0` under the same sentinel condition. -/
def sideImplied (consensus best : Int) : ℚ :=
  if best = 0 ∨ consensus = 0 then 0 else american_to_implied_prob best

/-- Edge Evaluation Result (spec section 3). -/
structure EdgeEval where
  side : String
  edge : ℚ
  win_probability : ℚ
deriving Repr, DecidableEq

/-- Modelled from the spec: evaluate both moneyline sides, pick the side
with the strictly greater edge (home wins ties), and derive the win
probability `clamp(1 − implied_prob(best of selected side), 0, 1)`. -/
def evaluate_edge (s : OddsSummary) : EdgeEval :=
  let eh := edgeForSide s.moneyline.home_consensus s.moneyline.home_best
  let ea := edgeForSide s.moneyline.away_consensus s.moneyline.away_best
  if ea > eh then
    { side := "away", edge := ea
      win_probability :=
        clamp01 (1 - sideImplied s.moneyline.away_consensus s.moneyline.away_best) }
  else
    { side := "home", edge := eh
      win_probability :=
        clamp01 (1 - sideImplied s.moneyline.home_consensus s.moneyline.home_best) }

/-- Modelled from the spec: the heuristic Decision Synthesizer
(section 4.3).  `bookmaker_count == 0` yields a skip with reasoning
`"no data"`; otherwise a moneyline bet on the selected side iff the edge
reaches `min_edge` (default `0.03`), with `expected_value` the edge, the
win probability from the evaluator, and confidence
`clamp(max(min_conf_floor, edge*10 + bookmaker_count*0.02), 0, 1)`. -/
def heuristic_decision (s : OddsSummary) (min_edge min_conf_floor : ℚ) :
    BetDecision :=
  if s.bookmaker_count = 0 then
    { event_id := "", decision := "skip", bet_type := none, bet_side := none
      confidence := 0, expected_value := 0, win_probability := 0
      reasoning := "no data" }
  else
    if min_edge ≤ (evaluate_edge s).edge then
      { event_id := "", decision := "place_bet"
        bet_type := some "moneyline", bet_side := some (evaluate_edge s).side
        confidence :=
          clamp01 (max min_conf_floor
            ((evaluate_edge s).edge * 10 + (s.bookmaker_count : ℚ) * (2 / 100)))
        expected_value := (evaluate_edge s).edge
        win_probability := (evaluate_edge s).win_probability
        reasoning := "edge meets threshold" }
    else
      { event_id := "", decision := "skip", bet_type := none, bet_side := none
        confidence := 0, expected_value := 0, win_probability := 0
        reasoning := "edge below threshold" }

/-- A summary with no bookmakers, for exercising the no-data branch. -/
def noDataSummary : OddsSummary := zeroSummary "H" "A"

/-- A summary from two bookmakers quoting the home moneyline at `-150` and
`-130` (consensus `-140`, best `-130`), the away side unquoted. -/
def twoBookSummary : OddsSummary where
  home_team := "H"
  away_team := "A"
  moneyline := { home_consensus := -140, away_consensus := 0, home_best := -130, away_best := 0 }
  spread := { home_line := some 0, away_line := some 0, home_odds := 0, away_odds := 0 }
  total := { line := some 0, over_odds := 0, under_odds := 0 }
  bookmaker_count := 2

/-! ## Helper lemmas -/

/-- Filtering a list by a predicate that holds wherever `f` fires leaves a
`filterMap` unchanged. -/
theorem filterMap_filter_of {α β : Type} {p : α → Bool} {f : α → Option β}
    (h : ∀ x, (f x).isSome = true → p x = true) :
    ∀ l : List α, (l.filter p).filterMap f = l.filterMap f := by
  intro l
  rw [List.filterMap_filter]
  refine List.filterMap_congr fun o _ => ?_
  by_cases hp : p o = true
  · rw [if_pos hp]
  · cases hs : f o with
    | none => simp [hp, hs]
    | some v => exact absurd (h o (by simp [hs])) hp

/-- The generic outcome-gathering pass of `summarize_odds` is unchanged by
`filterOutcomes p` whenever the selector only fires on outcomes kept by
`p`. -/
theorem gather_filterOutcomes {γ : Type} (bs : List Bookmaker)
    (p : String → Outcome → Bool) (sel : String → Outcome → Option γ)
    (h : ∀ k o, (sel k o).isSome = true → p k o = true) :
    ((bs.map fun b =>
        ({ b with markets := b.markets.map fun m =>
          ({ m with outcomes := m.outcomes.filter (p m.key) } : Market) } :
          Bookmaker)).flatMap fun b =>
      b.markets.flatMap fun m => m.outcomes.filterMap (sel m.key)) =
    bs.flatMap fun b => b.markets.flatMap fun m => m.outcomes.filterMap (sel m.key) := by
  rw [List.flatMap_map]
  refine List.flatMap_congr fun b _ => ?_
  dsimp only
  rw [List.flatMap_map]
  refine List.flatMap_congr fun m _ => ?_
  dsimp only
  exact filterMap_filter_of (h m.key) m.outcomes

/-- `scan_loop` keeps exactly the successfully analyzed events, in order. -/
theorem scan_loop_eq (analyze : EventOdds → Except String BetDecision)
    (callback : BetDecision → Except String Unit) (l : List EventOdds) :
    scan_loop analyze callback l = l.filterMap (analyzeOk analyze) := by
  induction l with
  | nil => rfl
  | cons e rest ih =>
    show scan_loop analyze callback (e :: rest) = _
    rw [List.filterMap_cons]
    unfold scan_loop analyzeOk
    cases analyze e with
    | error msg => simpa using ih
    | ok d => simpa using ih

/-- Moneyline home gathering ignores outcomes removed by a filter that keeps
everything the gather condition accepts. -/
theorem mlHomePrices_filterOutcomes (e : EventOdds) (p : String → Outcome → Bool)
    (h : ∀ k (o : Outcome), (k == "h2h" && o.name == e.home_team) = true → p k o = true) :
    mlHomePrices (filterOutcomes p e) = mlHomePrices e := by
  refine gather_filterOutcomes e.bookmakers p
    (fun k o => if k == "h2h" && o.name == e.home_team then some o.price else none) ?_
  intro k o ho
  dsimp only at ho
  by_cases hc : (k == "h2h" && o.name == e.home_team) = true
  · exact h k o hc
  · rw [if_neg hc] at ho; simp at ho

/-- Moneyline away gathering under an admissible outcome filter. -/
theorem mlAwayPrices_filterOutcomes (e : EventOdds) (p : String → Outcome → Bool)
    (h : ∀ k (o : Outcome),
      (k == "h2h" && !(o.name == e.home_team) && o.name == e.away_team) = true →
      p k o = true) :
    mlAwayPrices (filterOutcomes p e) = mlAwayPrices e := by
  refine gather_filterOutcomes e.bookmakers p
    (fun k o => if k == "h2h" && !(o.name == e.home_team) && o.name == e.away_team then some o.price else none) ?_
  intro k o ho
  dsimp only at ho
  by_cases hc : (k == "h2h" && !(o.name == e.home_team) && o.name == e.away_team) = true
  · exact h k o hc
  · rw [if_neg hc] at ho; simp at ho

/-- Spread home gathering under an admissible outcome filter. -/
theorem spreadHomePairs_filterOutcomes (e : EventOdds) (p : String → Outcome → Bool)
    (h : ∀ k (o : Outcome), (k == "spreads" && o.name == e.home_team) = true → p k o = true) :
    spreadHomePairs (filterOutcomes p e) = spreadHomePairs e := by
  refine gather_filterOutcomes e.bookmakers p
    (fun k o => if k == "spreads" && o.name == e.home_team then some (o.point, o.price) else none) ?_
  intro k o ho
  dsimp only at ho
  by_cases hc : (k == "spreads" && o.name == e.home_team) = true
  · exact h k o hc
  · rw [if_neg hc] at ho; simp at ho

/-- Spread away gathering under an admissible outcome filter. -/
theorem spreadAwayPairs_filterOutcomes (e : EventOdds) (p : String → Outcome → Bool)
    (h : ∀ k (o : Outcome),
      (k == "spreads" && !(o.name == e.home_team) && o.name == e.away_team) = true →
      p k o = true) :
    spreadAwayPairs (filterOutcomes p e) = spreadAwayPairs e := by
  refine gather_filterOutcomes e.bookmakers p
    (fun k o => if k == "spreads" && !(o.name == e.home_team) && o.name == e.away_team then some (o.point, o.price) else none) ?_
  intro k o ho
  dsimp only at ho
  by_cases hc : (k == "spreads" && !(o.name == e.home_team) && o.name == e.away_team) = true
  · exact h k o hc
  · rw [if_neg hc] at ho; simp at ho

/-- Totals Over gathering under an admissible outcome filter. -/
theorem totalOverPairs_filterOutcomes (e : EventOdds) (p : String → Outcome → Bool)
    (h : ∀ k (o : Outcome), (k == "totals" && o.name == "Over") = true → p k o = true) :
    totalOverPairs (filterOutcomes p e) = totalOverPairs e := by
  refine gather_filterOutcomes e.bookmakers p
    (fun k o => if k == "totals" && o.name == "Over" then some (o.point, o.price) else none) ?_
  intro k o ho
  dsimp only at ho
  by_cases hc : (k == "totals" && o.name == "Over") = true
  · exact h k o hc
  · rw [if_neg hc] at ho; simp at ho

/-- Totals Under gathering under an admissible outcome filter. -/
theorem totalUnderPairs_filterOutcomes (e : EventOdds) (p : String → Outcome → Bool)
    (h : ∀ k (o : Outcome),
      (k == "totals" && !(o.name == "Over") && o.name == "Under") = true → p k o = true) :
    totalUnderPairs (filterOutcomes p e) = totalUnderPairs e := by
  refine gather_filterOutcomes e.bookmakers p
    (fun k o => if k == "totals" && !(o.name == "Over") && o.name == "Under" then some (o.point, o.price) else none) ?_
  intro k o ho
  dsimp only at ho
  by_cases hc : (k == "totals" && !(o.name == "Over") && o.name == "Under") = true
  · exact h k o hc
  · rw [if_neg hc] at ho; simp at ho

/-- An empty price list summarizes to the consensus `0`. -/
theorem consensusOf_nil : consensusOf [] = 0 := by
  simp [consensusOf, avgPrices, truncToInt, Rat.num_zero, Rat.den_zero]

/-- The team-match filter keeps everything any of the six gather conditions
accepts. -/
theorem teamMatchFilter_admissible (e : EventOdds) :
    (∀ k (o : Outcome), (k == "h2h" && o.name == e.home_team) = true →
      teamMatchFilter e k o = true) ∧
    (∀ k (o : Outcome),
      (k == "h2h" && !(o.name == e.home_team) && o.name == e.away_team) = true →
      teamMatchFilter e k o = true) ∧
    (∀ k (o : Outcome), (k == "spreads" && o.name == e.home_team) = true →
      teamMatchFilter e k o = true) ∧
    (∀ k (o : Outcome),
      (k == "spreads" && !(o.name == e.home_team) && o.name == e.away_team) = true →
      teamMatchFilter e k o = true) ∧
    (∀ k (o : Outcome), (k == "totals" && o.name == "Over") = true →
      teamMatchFilter e k o = true) ∧
    (∀ k (o : Outcome),
      (k == "totals" && !(o.name == "Over") && o.name == "Under") = true →
      teamMatchFilter e k o = true) := by
  refine ⟨?_, ?_, ?_, ?_, ?_, ?_⟩ <;> intro k o hc <;>
    simp only [Bool.and_eq_true] at hc <;> unfold teamMatchFilter
  · rw [if_pos (by simp [hc.1])]; simp [hc.2]
  · rw [if_pos (by simp [hc.1.1])]; simp [hc.2]
  · rw [if_pos (by simp [hc.1])]; simp [hc.2]
  · rw [if_pos (by simp [hc.1.1])]; simp [hc.2]
  · rw [eq_of_beq hc.1, if_neg (by decide)]
  · rw [eq_of_beq hc.1.1, if_neg (by decide)]

/-! ## Claim theorems -/


/-- The C1 claim. -/
theorem C1_implied_prob (o : Int) :
    american_to_implied_prob o =
      (if 0 < o then 100 / ((o : ℚ) + 100)
       else if o < 0 then (-(o : ℚ)) / ((-(o : ℚ)) + 100) else 0) ∧
    0 ≤ american_to_implied_prob o ∧ american_to_implied_prob o ≤ 1 ∧
    american_to_implied_prob 100 = 1 / 2 ∧
    american_to_implied_prob (-100) = 1 / 2 := by
  have habs : ∀ n : Int, n < 0 → ((n.natAbs : ℚ)) = -(n : ℚ) := by
    intro n hn
    rw [Int.cast_natAbs, Int.cast_abs]
    exact abs_of_neg (by exact_mod_cast hn)
  refine ⟨?_, ?_, ?_, by norm_num [american_to_implied_prob],
    by norm_num [american_to_implied_prob]⟩
  · unfold american_to_implied_prob
    rcases lt_trichotomy o 0 with h | h | h
    · rw [if_neg (by omega), if_neg (by omega), if_pos h, habs o h]
    · subst h; norm_num
    · rw [if_pos h, if_pos h]
  · unfold american_to_implied_prob
    split_ifs with h
    · have h1 : (0 : ℚ) < (o : ℚ) + 100 := by
        have : (1 : ℚ) ≤ (o : ℚ) := by exact_mod_cast h
        linarith
      positivity
    · have h2 : (0 : ℚ) ≤ (o.natAbs : ℚ) := by positivity
      have h3 : (0 : ℚ) < (o.natAbs : ℚ) + 100 := by linarith
      positivity
  · unfold american_to_implied_prob
    split_ifs with h
    · have h1 : (0 : ℚ) < (o : ℚ) + 100 := by
        have : (1 : ℚ) ≤ (o : ℚ) := by exact_mod_cast h
        linarith
      have h0 : (0 : ℚ) ≤ (o : ℚ) := by exact_mod_cast le_of_lt h
      rw [div_le_one h1]
      linarith
    · have h2 : (0 : ℚ) ≤ (o.natAbs : ℚ) := by positivity
      have h3 : (0 : ℚ) < (o.natAbs : ℚ) + 100 := by linarith
      rw [div_le_one h3]
      linarith


/-- Claim C3 (corrected): for every event and every (market, side) slot, the
summary's consensus field is the arithmetic mean of the gathered prices
truncated to an integer (0 if the list is empty); a best-price field equal
to `max(L)` (0 if empty) exists for the moneyline slots only — the spread
and total dicts carry no best price. -/
theorem C3_consensus_and_best (e : EventOdds) (ms : MarketSide) :
    consensusField (summarize_odds e) ms = consensusOf (gatheredPrices e ms) ∧
    bestField (summarize_odds e) ms =
      (if isMoneyline ms then some (bestOf (gatheredPrices e ms)) else none) := by
  cases ms <;> exact ⟨rfl, rfl⟩

/-- Claim C3, as stated, is false: at the mock event of the module's own
test block, the spread-home slot has no best-price field in the summary. -/
theorem C3_counterexample :
    ¬ ∀ (e : EventOdds) (ms : MarketSide),
        consensusField (summarize_odds e) ms = consensusOf (gatheredPrices e ms) ∧
        bestField (summarize_odds e) ms = some (bestOf (gatheredPrices e ms)) := by
  intro h
  have hc := (h mockEvent MarketSide.spHome).2
  simp [bestField] at hc

/-- Claim C4 (corrected): the spread line fields are the first recorded
point per team side and the single total line field is the first recorded
point of the Over side; removing every totals-market Under outcome leaves
the total line unchanged, so Under points never reach any line field, and
no line is ever averaged. -/
theorem C4_line_fields (e : EventOdds) :
    (summarize_odds e).spread.home_line = firstLineOf (spreadHomePairs e) ∧
    (summarize_odds e).spread.away_line = firstLineOf (spreadAwayPairs e) ∧
    (summarize_odds e).total.line = firstLineOf (totalOverPairs e) ∧
    (summarize_odds (dropUnderOutcomes e)).total.line = (summarize_odds e).total.line := by
  refine ⟨rfl, rfl, rfl, ?_⟩
  show firstLineOf (totalOverPairs (filterOutcomes keepNonUnderTotals e)) =
    firstLineOf (totalOverPairs e)
  rw [totalOverPairs_filterOutcomes e keepNonUnderTotals ?_]
  intro k o hc
  simp only [Bool.and_eq_true] at hc
  have hov : o.name = "Over" := eq_of_beq hc.2
  unfold keepNonUnderTotals
  rw [hov, show ("Over" == "Under") = false from by decide, Bool.and_false]
  rfl

/-- Claim C4, as stated, is false: when the first Over point and the first
Under point differ, the total line field equals the Over point only, so it
cannot equal the first recorded point for the Under side. -/
theorem C4_counterexample :
    ¬ ∀ (e : EventOdds) (ms : MarketSide), isLineSide ms = true →
        lineField (summarize_odds e) ms = some (firstLineOf (gatheredPairs e ms)) := by
  intro h
  have hc := h mismatchedTotalsEvent MarketSide.totUnder rfl
  simp only [lineField, gatheredPairs] at hc
  rw [show (summarize_odds mismatchedTotalsEvent).total.line = some (95 / 2 : ℚ) from rfl,
    show firstLineOf (totalUnderPairs mismatchedTotalsEvent) = some (97 / 2 : ℚ) from rfl]
    at hc
  simp only [Option.some.injEq] at hc
  norm_num at hc

/-- Claim C5: `summarize_odds` tolerates absent data — `bookmaker_count`
always equals the number of bookmaker entries of the input; an event with
no bookmakers yields the all-zero summary; and outcomes of the team-matched
markets whose name matches neither team contribute nothing (removing them
all leaves the summary unchanged — they are silently dropped). -/
theorem C5_summarizer_absent_data (e : EventOdds) (i ht aw ct : String) :
    (summarize_odds e).bookmaker_count = e.bookmakers.length ∧
    summarize_odds (EventOdds.mk i ht aw ct []) = zeroSummary ht aw ∧
    summarize_odds (pruneNonMatching e) = summarize_odds e := by
  refine ⟨rfl, ?_, ?_⟩
  · simp [summarize_odds, zeroSummary, mlHomePrices, mlAwayPrices,
      spreadHomePairs, spreadAwayPairs, totalOverPairs, totalUnderPairs,
      consensusOf_nil, bestOf, firstLineOf]
  · obtain ⟨a1, a2, a3, a4, a5, a6⟩ := teamMatchFilter_admissible e
    have h1 := mlHomePrices_filterOutcomes e (teamMatchFilter e) a1
    have h2 := mlAwayPrices_filterOutcomes e (teamMatchFilter e) a2
    have h3 := spreadHomePairs_filterOutcomes e (teamMatchFilter e) a3
    have h4 := spreadAwayPairs_filterOutcomes e (teamMatchFilter e) a4
    have h5 := totalOverPairs_filterOutcomes e (teamMatchFilter e) a5
    have h6 := totalUnderPairs_filterOutcomes e (teamMatchFilter e) a6
    have hlen : (pruneNonMatching e).bookmakers.length = e.bookmakers.length := by
      simp [pruneNonMatching, filterOutcomes]
    have hht : (pruneNonMatching e).home_team = e.home_team := rfl
    have haw : (pruneNonMatching e).away_team = e.away_team := rfl
    unfold summarize_odds
    rw [show pruneNonMatching e = filterOutcomes (teamMatchFilter e) e from rfl] at *
    rw [h1, h2, h3, h4, h5, h6, hht, haw, hlen]

/-- Claim C2 (heuristic path, modelled from the spec): a summary with no
bookmakers yields a skip with reasoning "no data"; otherwise the decision
is place_bet exactly when the evaluated edge reaches the `min_edge`
threshold (so an edge equal to the threshold places the bet and any
smaller edge skips), and a placed bet is a moneyline bet on the selected
side with expected value equal to the edge. -/
theorem C2_heuristic_threshold (s : OddsSummary) (me mcf : ℚ) :
    (s.bookmaker_count = 0 →
      (heuristic_decision s me mcf).decision = "skip" ∧
      (heuristic_decision s me mcf).reasoning = "no data") ∧
    (s.bookmaker_count ≠ 0 →
      ((heuristic_decision s me mcf).decision = "place_bet" ↔
        me ≤ (evaluate_edge s).edge) ∧
      (me ≤ (evaluate_edge s).edge →
        (heuristic_decision s me mcf).bet_type = some "moneyline" ∧
        (heuristic_decision s me mcf).bet_side = some (evaluate_edge s).side ∧
        (heuristic_decision s me mcf).expected_value = (evaluate_edge s).edge) ∧
      ((evaluate_edge s).edge < me →
        (heuristic_decision s me mcf).decision = "skip")) := by
  unfold heuristic_decision
  constructor
  · intro h0
    rw [if_pos h0]
    exact ⟨rfl, rfl⟩
  · intro hn
    rw [if_neg hn]
    by_cases he : me ≤ (evaluate_edge s).edge
    · rw [if_pos he]
      exact ⟨⟨fun _ => he, fun _ => rfl⟩, fun _ => ⟨rfl, rfl, rfl⟩,
        fun hlt => absurd he (not_le.mpr hlt)⟩
    · rw [if_neg he]
      refine ⟨⟨fun habs => absurd habs (by decide), fun hle => absurd hle he⟩,
        fun hle => absurd hle he, fun _ => rfl⟩

/-- Witness for C2: the no-data branch on a bookmaker-free summary, and the
threshold branch on the two-bookmaker summary whose home edge 5/276
exceeds the threshold 1/100. -/
theorem C2_heuristic_threshold_witness :
    noDataSummary.bookmaker_count = 0 ∧
    (heuristic_decision noDataSummary (3 / 100) (1 / 2)).decision = "skip" ∧
    (heuristic_decision noDataSummary (3 / 100) (1 / 2)).reasoning = "no data" ∧
    twoBookSummary.bookmaker_count ≠ 0 ∧
    (1 / 100 : ℚ) ≤ (evaluate_edge twoBookSummary).edge ∧
    (heuristic_decision twoBookSummary (1 / 100) (1 / 2)).decision = "place_bet" ∧
    (heuristic_decision twoBookSummary (1 / 100) (1 / 2)).bet_type = some "moneyline" ∧
    (heuristic_decision twoBookSummary (1 / 100) (1 / 2)).expected_value =
      (evaluate_edge twoBookSummary).edge := by
  have e140 : american_to_implied_prob (-140) = 7 / 12 := by
    unfold american_to_implied_prob
    rw [if_neg (by norm_num), show ((-140 : Int).natAbs : ℚ) = 140 from by
      rw [show (-140 : Int).natAbs = 140 from rfl]; norm_num]
    norm_num
  have e130 : american_to_implied_prob (-130) = 13 / 23 := by
    unfold american_to_implied_prob
    rw [if_neg (by norm_num), show ((-130 : Int).natAbs : ℚ) = 130 from by
      rw [show (-130 : Int).natAbs = 130 from rfl]; norm_num]
    norm_num
  have hze : edgeForSide 0 0 = 0 := by
    unfold edgeForSide
    rw [if_pos (Or.inl rfl)]
  have hef : edgeForSide (-140) (-130) = 7 / 12 - 13 / 23 := by
    unfold edgeForSide
    rw [if_neg (by norm_num), e140, e130]
  have hev : (evaluate_edge twoBookSummary).edge = 7 / 12 - 13 / 23 := by
    show (evaluate_edge (OddsSummary.mk "H" "A" (MoneylineSummary.mk (-140) 0 (-130) 0)
      (SpreadSummary.mk (some 0) (some 0) 0 0) (TotalSummary.mk (some 0) 0 0) 2)).edge =
      7 / 12 - 13 / 23
    unfold evaluate_edge
    dsimp only
    rw [hze, hef, if_neg (by norm_num)]
  have hedge : (1 / 100 : ℚ) ≤ (evaluate_edge twoBookSummary).edge := by
    rw [hev]; norm_num
  have h1 := (C2_heuristic_threshold noDataSummary (3 / 100) (1 / 2)).1 rfl
  have h2 := (C2_heuristic_threshold twoBookSummary (1 / 100) (1 / 2)).2 (by decide)
  exact ⟨rfl, h1.1, h1.2, by decide, hedge, (h2.1).mpr hedge,
    (h2.2.1 hedge).1, (h2.2.1 hedge).2.2⟩

/-- Claim C6 (corrected): an exception from the inference collaborator
yields a skip decision whose reasoning is the exception message, and an
error-shaped response yields a skip decision — but with the fixed
reasoning "AI analysis failed" rather than the error message, which is
only logged. -/
theorem C6_error_fallback (msg : String) (r : List (String × JVal)) :
    (build_decision (.exn msg)).decision = JVal.str "skip" ∧
    (build_decision (.exn msg)).reasoning = JVal.str msg ∧
    (hasKey r "error" = true →
      (build_decision (.ok r)).decision = JVal.str "skip" ∧
      (build_decision (.ok r)).reasoning = JVal.str "AI analysis failed") := by
  refine ⟨rfl, rfl, fun herr => ?_⟩
  unfold build_decision resolve_response
  dsimp only
  rw [if_pos herr]
  exact ⟨rfl, rfl⟩

/-- Witness for C6: the exception branch carries the message "boom" and the
error-shaped timeout response is turned into a skip. -/
theorem C6_error_fallback_witness :
    hasKey errResp "error" = true ∧
    (build_decision (.exn "boom")).reasoning = JVal.str "boom" ∧
    (build_decision (.ok errResp)).decision = JVal.str "skip" := by
  exact ⟨rfl, (C6_error_fallback "boom" errResp).2.1,
    ((C6_error_fallback "boom" errResp).2.2 rfl).1⟩

/-- Claim C6, as stated, is false: for the error-shaped response
`{"error": "timeout"}` the decision is a skip whose reasoning is the
fixed string "AI analysis failed", which does not carry the error
message "timeout". -/
theorem C6_counterexample :
    (build_decision (.ok errResp)).decision = JVal.str "skip" ∧
    (build_decision (.ok errResp)).reasoning = JVal.str "AI analysis failed" ∧
    containsStr "AI analysis failed" "timeout" = false := by
  exact ⟨rfl, rfl, rfl⟩

/-- Claim C7: the scan truncates to `max_events`, keeps exactly the
decisions of the non-failing events in order (a failing event is skipped
and the scan continues), returns at most `max_events` decisions, and its
result does not depend on the callback, so a throwing callback neither
aborts the scan nor drops a decision. -/
theorem C7_scan_isolation (analyze : EventOdds → Except String BetDecision)
    (callback : BetDecision → Except String Unit) (events : List EventOdds)
    (max_events : Nat) :
    scan_sport analyze callback events max_events =
      (events.take max_events).filterMap (analyzeOk analyze) ∧
    (scan_sport analyze callback events max_events).length ≤ max_events ∧
    ∀ callback2 : BetDecision → Except String Unit,
      scan_sport analyze callback events max_events =
        scan_sport analyze callback2 events max_events := by
  have h := scan_loop_eq analyze callback (events.take max_events)
  refine ⟨h, ?_, fun cb2 => ?_⟩
  · rw [show scan_sport analyze callback events max_events = _ from h]
    calc ((events.take max_events).filterMap (analyzeOk analyze)).length
        ≤ (events.take max_events).length := List.length_filterMap_le _ _
      _ ≤ max_events := List.length_take_le _ _
  · rw [show scan_sport analyze callback events max_events = _ from h,
      show scan_sport analyze cb2 events max_events = _ from
        scan_loop_eq analyze cb2 (events.take max_events)]

/-- Claim C8: at any effective threshold, `get_recommendations` returns
exactly the input decisions that are place_bet with confidence at least the
threshold and positive expected value, and the result is a sublist of the
input (the very same decision values, unmodified). -/
theorem C8_recommendations_filter (decisions : List BetDecision) (min_conf : ℚ) :
    (∀ d : BetDecision, d ∈ get_recommendations decisions min_conf ↔
      d ∈ decisions ∧ d.decision = "place_bet" ∧ min_conf ≤ d.confidence ∧
        0 < d.expected_value) ∧
    List.Sublist (get_recommendations decisions min_conf) decisions := by
  constructor
  · intro d
    unfold get_recommendations
    rw [List.mem_filter]
    constructor
    · rintro ⟨hmem, hcond⟩
      simp only [Bool.and_eq_true, decide_eq_true_eq, beq_iff_eq] at hcond
      exact ⟨hmem, hcond.1.1, hcond.1.2, hcond.2⟩
    · rintro ⟨hmem, h1, h2, h3⟩
      refine ⟨hmem, ?_⟩
      simp only [Bool.and_eq_true, decide_eq_true_eq, beq_iff_eq]
      exact ⟨⟨h1, h2⟩, h3⟩
  · exact List.filter_sublist _

/-- Claim C9 (corrected): the numeric fields of a built decision are the
collaborator's values passed through unvalidated — `0` when absent or on
the error fallbacks (hence inside `[0,1]` in those cases), but an
out-of-range response value reaches the decision unchanged. -/
theorem C9_passthrough (r : List (String × JVal)) (msg : String) :
    (hasKey r "error" = false →
      (build_decision (.ok r)).confidence = getJ r "confidence" (.num 0) ∧
      (build_decision (.ok r)).win_probability =
        getJ r "win_probability" (.num 0)) ∧
    ((List.find? (fun p => p.1 == "confidence") r) = none →
      hasKey r "error" = false →
      (build_decision (.ok r)).confidence = JVal.num 0) ∧
    (build_decision (.exn msg)).confidence = JVal.num 0 ∧
    (build_decision (.exn msg)).win_probability = JVal.num 0 := by
  refine ⟨fun herr => ?_, fun hnone herr => ?_, rfl, rfl⟩
  · unfold build_decision resolve_response
    dsimp only
    rw [if_neg (by simp [herr])]
    exact ⟨rfl, rfl⟩
  · unfold build_decision resolve_response
    dsimp only
    rw [if_neg (by simp [herr])]
    unfold getJ
    rw [hnone]
    rfl

/-- Witness for C9: a response without numeric fields yields confidence
`0`. -/
theorem C9_passthrough_witness :
    hasKey plainResp "error" = false ∧
    (List.find? (fun p => p.1 == "confidence") plainResp) = none ∧
    (build_decision (.ok plainResp)).confidence = JVal.num 0 := by
  exact ⟨rfl, rfl, (C9_passthrough plainResp "x").2.1 rfl rfl⟩

/-- Claim C9, as stated, is false: a response with `confidence` `2` and
`win_probability` `3/2` flows through to a decision whose confidence and
win probability are outside `[0,1]` — nothing validates or clamps them. -/
theorem C9_counterexample :
    ¬ (inUnitNum (build_decision (.ok badResp)).confidence ∧
       inUnitNum (build_decision (.ok badResp)).win_probability) := by
  rintro ⟨⟨q, hq, h0, h1⟩, -⟩
  rw [show (build_decision (.ok badResp)).confidence = JVal.num 2 from rfl] at hq
  injection hq with h2
  rw [← h2] at h1
  norm_num at h1

/-- Claim C10: passing `0.0` (or `None`) as `min_confidence` to the
engine's `get_recommendations` filters with the engine's configured
default threshold, and a caller-supplied override takes effect exactly
when it is nonzero. -/
theorem C10_min_conf_fallback (decisions : List BetDecision) (engine_min : ℚ) :
    get_recommendations_engine decisions (some 0) engine_min =
      get_recommendations decisions engine_min ∧
    get_recommendations_engine decisions none engine_min =
      get_recommendations decisions engine_min ∧
    ∀ v : ℚ, v ≠ 0 →
      get_recommendations_engine decisions (some v) engine_min =
        get_recommendations decisions v := by
  refine ⟨?_, rfl, fun v hv => ?_⟩
  · unfold get_recommendations_engine effective_min_conf
    dsimp only
    rw [if_pos rfl]
  · unfold get_recommendations_engine effective_min_conf
    dsimp only
    rw [if_neg hv]

/-- Witness for C10: the nonzero override `1/2` is used as the threshold. -/
theorem C10_min_conf_fallback_witness :
    (1 / 2 : ℚ) ≠ 0 ∧
    get_recommendations_engine [] (some (1 / 2)) (3 / 5) =
      get_recommendations [] (1 / 2) := by
  exact ⟨by norm_num, (C10_min_conf_fallback [] (3 / 5)).2.2 (1 / 2) (by norm_num)⟩

end ProjectBroke
